import Mathlib

/-!
A shallow embedding of the user-account service: the user directory
(the Sequelize model wrappers), the auth-gate middleware, and the three
controllers (register, login, list users), together with a model of the
token service taken from the design spec. Definitions follow the source
files; external collaborators (bcrypt, jsonwebtoken, the persistence
engine) enter as explicit parameters or as spec-modelled functions.
-/

namespace UserService

/-- Identity claims carried by a session token: userId, email, username. -/
structure Claims where
  userId : Nat
  email : String
  username : String
deriving DecidableEq

/-- Modelled from the spec: a session token is an opaque signed string encoding
claims plus issuance and expiry times; the signing library (jsonwebtoken) is an
external collaborator, so the token is represented structurally, with the
signature abstracted as a natural number computed from the signed content. -/
structure Token where
  claims : Claims
  issuedAt : Int
  expiresAt : Int
  sig : Nat
deriving DecidableEq

/-- Token lifetime: 24 hours (the jwt expiresIn option is the string 24h), in seconds. -/
def tokenLifetime : Int := 24 * 60 * 60

/-- Modelled from the spec: Token Service issue signs the claims with the
server-held secret and sets expiresAt to now plus 24 hours. The signature
scheme is abstracted as a function sigOf of the signed content. -/
def signToken (sigOf : Claims → Int → Int → Nat) (c : Claims) (now : Int) : Token :=
  { claims := c, issuedAt := now, expiresAt := now + tokenLifetime,
    sig := sigOf c now (now + tokenLifetime) }

/-- Outcome of Token Service verification. -/
inductive VerifyResult where
  | ok (c : Claims)
  | invalidToken
  | expiredToken
deriving DecidableEq

/-- Modelled from the spec: Token Service verify fails invalidToken when the
signature does not match the signed content, fails expiredToken when now is
strictly past expiresAt, and otherwise returns the claims. -/
def verifyToken (sigOf : Claims → Int → Int → Nat) (t : Token) (now : Int) : VerifyResult :=
  if t.sig ≠ sigOf t.claims t.issuedAt t.expiresAt then .invalidToken
  else if now > t.expiresAt then .expiredToken
  else .ok t.claims

/-- JSON values as produced by the service's response bodies. Session tokens
appear as their own leaf, since their string rendering belongs to the external
jwt library. -/
inductive Json where
  | str (s : String)
  | num (n : Int)
  | arr (l : List Json)
  | obj (fields : List (String × Json))
  | jtok (t : Token)

/-- An HTTP response: status code and JSON body. -/
structure Response where
  status : Nat
  body : Json

/-- The error body shape used by every error path of the controllers. -/
def errBody (msg : String) : Json := .obj [("error", .str msg)]

/-- A row of the users table: id, username, email, password (the bcrypt hash),
createdAt timestamp. -/
structure StoredUser where
  id : Nat
  username : String
  email : String
  password : String
  createdAt : Int
deriving DecidableEq

/-- The public projection selected by the attributes id, username, email, createdAt. -/
structure PubUser where
  id : Nat
  username : String
  email : String
  createdAt : Int
deriving DecidableEq

/-- Projection of a stored row to its public attributes. -/
def StoredUser.toPub (u : StoredUser) : PubUser :=
  ⟨u.id, u.username, u.email, u.createdAt⟩

/-- findUserByEmail: findOne with a where clause on email, the first row whose
email equals the argument exactly (case-sensitive string equality). -/
def findUserByEmail (db : List StoredUser) (email : String) : Option StoredUser :=
  db.find? (fun u => u.email == email)

/-- findUserByUsername: findOne with a where clause on username, exact match. -/
def findUserByUsername (db : List StoredUser) (username : String) : Option StoredUser :=
  db.find? (fun u => u.username == username)

/-- findUserById: findByPk projected to the public attributes. -/
def findUserById (db : List StoredUser) (id : Nat) : Option PubUser :=
  (db.find? (fun u => u.id == id)).map StoredUser.toPub

/-- The descending order on createdAt used by getAllUsers (ORDER BY createdAt DESC). -/
def createdDesc (a b : StoredUser) : Prop := b.createdAt ≤ a.createdAt

instance : DecidableRel createdDesc :=
  fun a b => inferInstanceAs (Decidable (b.createdAt ≤ a.createdAt))

instance : IsTotal StoredUser createdDesc :=
  ⟨fun a b => le_total b.createdAt a.createdAt⟩

instance : IsTrans StoredUser createdDesc :=
  ⟨fun _ _ _ hab hbc => le_trans hbc hab⟩

/-- getAllUsers: all rows, public attributes only, ordered by createdAt descending. -/
def getAllUsers (db : List StoredUser) : List PubUser :=
  (List.insertionSort createdDesc db).map StoredUser.toPub

/-- Outcome of the persistence-layer insert performed by createUser: either the
created row's assigned id and createdAt, or a thrown error carrying an optional
driver error code and a server-side detail message. -/
inductive InsertOutcome where
  | ok (id : Nat) (createdAt : Int)
  | err (code : Option String) (detail : String)

/-- Claims attached to the request context by the auth gate. -/
structure ReqUser where
  userId : Nat
  email : String
  username : String
deriving DecidableEq

/-- Split of a character list on a separator character, as the JS string split
method behaves with a one-character separator (empty segments preserved, the
empty string splitting to one empty segment). -/
def splitOnChar (sep : Char) : List Char → List (List Char)
  | [] => [[]]
  | c :: cs =>
    if c = sep then [] :: splitOnChar sep cs
    else
      match splitOnChar sep cs with
      | [] => [[c]]
      | h :: t => (c :: h) :: t

/-- Split of the authorization header on spaces. -/
def splitHeader (h : String) : List String :=
  (splitOnChar ' ' h.toList).map List.asString

/-- Token extraction from the authorization header: element 1 of the split on
spaces; a missing header, an out-of-range index, or an empty segment all count
as no token (JS falsiness of the indexed value). -/
def extractToken (header : Option String) : Option String :=
  match header with
  | none => none
  | some h =>
    match (splitHeader h).drop 1 with
    | [] => none
    | t :: _ => if t = "" then none else some t

/-- Gate response when no token could be extracted from the header. -/
def noTokenResp : Response := ⟨401, errBody "Access denied. No token provided."⟩

/-- Gate response when the verified userId no longer exists in the directory. -/
def userGoneResp : Response := ⟨401, errBody "User not found. Token invalid."⟩

/-- Gate response for a signature or structure failure of the token. -/
def invalidTokenResp : Response := ⟨401, errBody "Invalid token"⟩

/-- Gate response for an expired token. -/
def expiredTokenResp : Response := ⟨401, errBody "Token has expired. Please login again."⟩

/-- The try block of authenticateToken, once a token string has been obtained
and the jwt library has produced its verdict: on success re-fetch the user by
the userId claim and attach its public identity, otherwise map the jwt error
kind to its 401 response. -/
def gateOnVerify (db : List StoredUser) (v : VerifyResult) : Except Response ReqUser :=
  match v with
  | .ok c =>
    match findUserById db c.userId with
    | none => .error userGoneResp
    | some u => .ok ⟨u.id, u.email, u.username⟩
  | .invalidToken => .error invalidTokenResp
  | .expiredToken => .error expiredTokenResp

/-- The authenticateToken middleware: extract the token (split of the header on
spaces, index 1), fail 401 if falsy, otherwise verify and dispatch; jwt
verification of the token string is abstracted by the verify argument. -/
def authenticateToken (db : List StoredUser) (verify : String → VerifyResult)
    (header : Option String) : Except Response ReqUser :=
  match extractToken header with
  | none => .error noTokenResp
  | some tok => gateOnVerify db (verify tok)

/-- Message of the register all-fields-required validation error. -/
def msgAllFields : String := "All fields are required (username, email, password)"

/-- Message of the register email-shape validation error. -/
def msgBadEmail : String := "Please provide a valid email address"

/-- Message of the register password-length validation error. -/
def msgShortPw : String := "Password must be at least 6 characters long"

/-- Message of the register duplicate-email conflict. -/
def msgEmailTaken : String := "Email is already registered"

/-- Message of the register duplicate-username conflict. -/
def msgUsernameTaken : String := "Username is already taken"

/-- Message of the register success response. -/
def msgRegSuccess : String := "User registered successfully"

/-- Message of the register conflict detected at insert time (code 23505). -/
def msgDupUser : String := "User with this email or username already exists"

/-- Generic message reported for any other persistence failure during register. -/
def msgRegServerError : String := "Server error during registration. Please try again."

/-- Message of the login missing-fields validation error. -/
def msgLoginFields : String := "Email and password are required"

/-- The single message used for both login failure causes. -/
def msgInvalidCreds : String := "Invalid email or password"

/-- Message of the login success response. -/
def msgLoginSuccess : String := "Login successful"

/-- The register success body for the given public fields (the hash is never
part of it). -/
def regSuccessBody (username email : String) (id : Nat) (createdAt : Int) : Json :=
  .obj [("message", .str msgRegSuccess),
    ("user", .obj [("id", .num id), ("username", .str username),
      ("email", .str email), ("createdAt", .num createdAt)])]

/-- The login success body: message, token, and the user's public fields. -/
def loginSuccessBody (u : StoredUser) (tk : Token) : Json :=
  .obj [("message", .str msgLoginSuccess), ("token", .jtok tk),
    ("user", .obj [("id", .num u.id), ("username", .str u.username),
      ("email", .str u.email)])]

/-- JS falsiness of a possibly-missing string field: undefined or the empty string. -/
def falsy : Option String → Bool
  | none => true
  | some s => s.isEmpty

/-- A character admitted by the bracket class of the email pattern: neither
whitespace nor an at sign. -/
def emailChar (c : Char) : Bool :=
  !(c == ' ' || c == '\t' || c == '\n' || c == '\r' || c == '\x0b' || c == '\x0c' || c == '@')

/-- Is some character of the list a dot with at least one character after it? -/
def dotThenMore : List Char → Bool
  | [] => false
  | [_] => false
  | c :: rest => (c == '.') || dotThenMore rest

/-- Does the list carry a dot at some position that has at least one character
before it and at least one after it? -/
def hasInternalDot : List Char → Bool
  | [] => false
  | _ :: rest => dotThenMore rest

/-- The register email check, translated from the emailRegex literal in the
controller: anchored, a nonempty run of non-space non-at characters, an at
sign, a nonempty run, a dot, a nonempty run. Since the bracket class excludes
the at sign, a match forces exactly one at sign, and the two runs around the
mandatory dot sit inside the part after the at sign. -/
def emailTest (s : String) : Bool :=
  match splitOnChar '@' s.toList with
  | [localPart, domain] =>
    !localPart.isEmpty && localPart.all emailChar && domain.all emailChar &&
      hasInternalDot domain
  | _ => false

/-- The body of a register request; destructured fields may be absent. -/
structure RegisterReq where
  username : Option String
  email : Option String
  password : Option String

/-- The body of a login request; destructured fields may be absent. -/
structure LoginReq where
  email : Option String
  password : Option String

/-- The registerUser controller. State and effects are explicit: the directory
in, the directory out (changed only by a successful insert); the bcrypt hash
function and the persistence-layer insert outcome are passed in, standing for
the awaited external calls. -/
def registerUser (db : List StoredUser) (hash : String → String)
    (ins : InsertOutcome) (rq : RegisterReq) : Response × List StoredUser :=
  if falsy rq.username || falsy rq.email || falsy rq.password then
    (⟨400, errBody msgAllFields⟩, db)
  else if !emailTest (rq.email.getD "") then (⟨400, errBody msgBadEmail⟩, db)
  else if (rq.password.getD "").length < 6 then (⟨400, errBody msgShortPw⟩, db)
  else if (findUserByEmail db (rq.email.getD "")).isSome then
    (⟨409, errBody msgEmailTaken⟩, db)
  else if (findUserByUsername db (rq.username.getD "")).isSome then
    (⟨409, errBody msgUsernameTaken⟩, db)
  else
    match ins with
    | .ok newId createdAt =>
      (⟨201, regSuccessBody (rq.username.getD "") (rq.email.getD "") newId createdAt⟩,
       db ++ [⟨newId, rq.username.getD "", rq.email.getD "",
         hash (rq.password.getD ""), createdAt⟩])
    | .err code _detail =>
      if code = some "23505" then (⟨409, errBody msgDupUser⟩, db)
      else (⟨500, errBody msgRegServerError⟩, db)

/-- The loginUser controller; the bcrypt comparison, the signature scheme and
the current time are passed in, standing for the external calls. -/
def loginUser (db : List StoredUser) (compare : String → String → Bool)
    (sigOf : Claims → Int → Int → Nat) (now : Int) (rq : LoginReq) : Response :=
  if falsy rq.email || falsy rq.password then ⟨400, errBody msgLoginFields⟩
  else
    match findUserByEmail db (rq.email.getD "") with
    | none => ⟨401, errBody msgInvalidCreds⟩
    | some user =>
      if !(compare (rq.password.getD "") user.password) then
        ⟨401, errBody msgInvalidCreds⟩
      else
        ⟨200, loginSuccessBody user
          (signToken sigOf ⟨user.id, user.email, user.username⟩ now)⟩

/-- JSON rendering of a public user row as serialized by the list endpoint. -/
def pubUserJson (u : PubUser) : Json :=
  .obj [("id", .num u.id), ("username", .str u.username),
        ("email", .str u.email), ("createdAt", .num u.createdAt)]

/-- The getAllUsers controller in the controllers file: responds 200 with the
rows themselves as the JSON body (no wrapper object around them). -/
def getAllUsersHandler (db : List StoredUser) : Response :=
  ⟨200, .arr ((getAllUsers db).map pubUserJson)⟩

/-- Modelled from the spec: the route wiring of the protected user-listing
operation (the routes file is not among the given sources): the auth gate runs
first and the handler runs only when the gate succeeds, receiving the attached
request user. Generic in the handler, so that non-invocation of the handler on
gate failure is expressible. -/
def protectedRoute (db : List StoredUser) (verify : String → VerifyResult)
    (handler : ReqUser → Response) (header : Option String) : Response :=
  match authenticateToken db verify header with
  | .error resp => resp
  | .ok ru => handler ru

/-- The protected GET users route: the gate composed with the list handler. -/
def getUsersRoute (db : List StoredUser) (verify : String → VerifyResult)
    (header : Option String) : Response :=
  protectedRoute db verify (fun _ => getAllUsersHandler db) header

mutual

/-- All object keys occurring anywhere in a JSON value. -/
def jsonKeys : Json → List String
  | .str _ => []
  | .num _ => []
  | .jtok _ => []
  | .arr l => jsonKeysArr l
  | .obj l => jsonKeysObj l

/-- All object keys occurring in a list of JSON values. -/
def jsonKeysArr : List Json → List String
  | [] => []
  | j :: js => jsonKeys j ++ jsonKeysArr js

/-- All object keys occurring in an object field list. -/
def jsonKeysObj : List (String × Json) → List String
  | [] => []
  | (k, j) :: rest => k :: (jsonKeys j ++ jsonKeysObj rest)

end

mutual

/-- All string values occurring anywhere in a JSON value. -/
def jsonStrs : Json → List String
  | .str s => [s]
  | .num _ => []
  | .jtok _ => []
  | .arr l => jsonStrsArr l
  | .obj l => jsonStrsObj l

/-- All string values occurring in a list of JSON values. -/
def jsonStrsArr : List Json → List String
  | [] => []
  | j :: js => jsonStrs j ++ jsonStrsArr js

/-- All string values occurring in an object field list. -/
def jsonStrsObj : List (String × Json) → List String
  | [] => []
  | (_, j) :: rest => jsonStrs j ++ jsonStrsObj rest

end

/-- Every fixed message string a controller can place in a response. -/
def allMessages : List String :=
  [msgAllFields, msgBadEmail, msgShortPw, msgEmailTaken, msgUsernameTaken,
   msgRegSuccess, msgDupUser, msgRegServerError, msgLoginFields,
   msgInvalidCreds, msgLoginSuccess]

/-- The response shape the specification states for the list endpoint: status
200 and an object carrying message, count and users fields with count equal to
the length of users. This definition follows the spec's words, to be compared
with the handler from the source. -/
def listRespSpecShape (r : Response) : Prop :=
  r.status = 200 ∧ ∃ msg users, r.body =
    .obj [("message", .str msg), ("count", .num users.length), ("users", .arr users)]

/-- Fixture row used by concrete witnesses. -/
def userW : StoredUser := ⟨1, "alice", "alice@mail.com", "$2b$10$hashA", 100⟩

/-- Fixture directory used by concrete witnesses. -/
def dbW : List StoredUser := [userW]

/-- Fixture verifier used by concrete witnesses: one good token for the stored
user, one token whose claims point at a vanished user, one expired token, and
everything else invalid. -/
def verifyW : String → VerifyResult := fun s =>
  if s = "good" then .ok ⟨1, "alice@mail.com", "alice"⟩
  else if s = "gone" then .ok ⟨2, "bob@mail.com", "bob"⟩
  else if s = "exp" then .expiredToken
  else .invalidToken

/-- Fixture handler used by concrete witnesses. -/
def handlerW : ReqUser → Response := fun _ => ⟨200, .num 7⟩

/-- Fixture bcrypt hash used by concrete witnesses. -/
def hashW : String → String := fun _ => "$2b$10$hashB"

/-- Fixture bcrypt comparison used by concrete witnesses: accepts everything. -/
def cmpW : String → String → Bool := fun _ _ => true

/-- Fixture signature scheme used by concrete witnesses. -/
def sigW : Claims → Int → Int → Nat := fun _ _ _ => 0

/-- Fixture bcrypt comparison that rejects everything. -/
def cmpFalseW : String → String → Bool := fun _ _ => false

/-- Character-wise lowercasing of a string, used to state that two strings
differ only in letter case. -/
def lowerStr (s : String) : List Char := s.toList.map Char.toLower

/-- Round trip of the character-list view of a string. -/
theorem asString_data (s : String) : s.data.asString = s := by
  cases s
  rfl

/-- Splitting a separator-free list yields that list as the only segment. -/
theorem splitOnChar_no_sep (sep : Char) (a : List Char) (ha : ∀ c ∈ a, c ≠ sep) :
    splitOnChar sep a = [a] := by
  induction a with
  | nil => rfl
  | cons c cs ih =>
    have hc : c ≠ sep := ha c (List.mem_cons_self c cs)
    have ih' := ih fun x hx => ha x (List.mem_cons_of_mem c hx)
    simp [splitOnChar, hc, ih']

/-- Splitting peels off a separator-free prefix before a separator. -/
theorem splitOnChar_append_sep (sep : Char) (a b : List Char)
    (ha : ∀ c ∈ a, c ≠ sep) :
    splitOnChar sep (a ++ sep :: b) = a :: splitOnChar sep b := by
  induction a with
  | nil => simp [splitOnChar]
  | cons c cs ih =>
    have hc : c ≠ sep := ha c (List.mem_cons_self c cs)
    have ih' := ih fun x hx => ha x (List.mem_cons_of_mem c hx)
    simp [splitOnChar, hc, ih']

/-- A header of the form scheme-space-token yields exactly the token. -/
theorem extractToken_word_pair (scheme tok : String)
    (hs : ∀ c ∈ scheme.toList, c ≠ ' ') (ht : ∀ c ∈ tok.toList, c ≠ ' ')
    (h0 : tok ≠ "") :
    extractToken (some (scheme ++ " " ++ tok)) = some tok := by
  have hlist : (scheme ++ " " ++ tok).toList = scheme.toList ++ ' ' :: tok.toList := by
    simp [String.toList]
  simp only [extractToken, splitHeader]
  rw [hlist, splitOnChar_append_sep ' ' _ _ hs, splitOnChar_no_sep ' ' _ ht]
  simp [asString_data, h0]

/-- A space-free header yields no token at all. -/
theorem extractToken_no_space (h : String) (hns : ∀ c ∈ h.toList, c ≠ ' ') :
    extractToken (some h) = none := by
  simp only [extractToken, splitHeader]
  rw [splitOnChar_no_sep ' ' _ hns]
  simp

/-- C1: for every request to the protected user-listing operation, the auth
gate fails with HTTP 401 and the protected handler is not invoked (the route's
response is the gate's, for every handler) when the header yields no token,
when verification fails as invalid or expired, or when the verified userId
matches no user in the directory; otherwise the gate attaches the re-fetched
user's userId, email and username to the request context and the handler is
invoked on them. -/
theorem C1_auth_gate (db : List StoredUser) (verify : String → VerifyResult)
    (handler : ReqUser → Response) (header : Option String) :
    (noTokenResp.status = 401 ∧ invalidTokenResp.status = 401 ∧
      expiredTokenResp.status = 401 ∧ userGoneResp.status = 401) ∧
    (extractToken header = none →
      protectedRoute db verify handler header = noTokenResp) ∧
    (∀ tok, extractToken header = some tok →
      (verify tok = .invalidToken →
        protectedRoute db verify handler header = invalidTokenResp) ∧
      (verify tok = .expiredToken →
        protectedRoute db verify handler header = expiredTokenResp) ∧
      (∀ c, verify tok = .ok c →
        (findUserById db c.userId = none →
          protectedRoute db verify handler header = userGoneResp) ∧
        (∀ u, findUserById db c.userId = some u →
          authenticateToken db verify header = .ok ⟨u.id, u.email, u.username⟩ ∧
          protectedRoute db verify handler header =
            handler ⟨u.id, u.email, u.username⟩))) := by
  refine ⟨⟨rfl, rfl, rfl, rfl⟩, ?_, ?_⟩
  · intro h
    simp [protectedRoute, authenticateToken, h]
  · intro tok htok
    refine ⟨?_, ?_, ?_⟩
    · intro hv
      simp [protectedRoute, authenticateToken, htok, gateOnVerify, hv]
    · intro hv
      simp [protectedRoute, authenticateToken, htok, gateOnVerify, hv]
    · intro c hv
      refine ⟨?_, ?_⟩
      · intro hf
        simp [protectedRoute, authenticateToken, htok, gateOnVerify, hv, hf]
      · intro u hf
        constructor
        · simp [authenticateToken, htok, gateOnVerify, hv, hf]
        · simp [protectedRoute, authenticateToken, htok, gateOnVerify, hv, hf]

/-- Concrete instances of the C1 auth-gate dispatch: missing token, invalid
token, expired token, vanished account, and the success path. -/
theorem C1_auth_gate_witness :
    protectedRoute dbW verifyW handlerW none = noTokenResp ∧
    protectedRoute dbW verifyW handlerW (some "Bearer bad") = invalidTokenResp ∧
    protectedRoute dbW verifyW handlerW (some "Bearer exp") = expiredTokenResp ∧
    protectedRoute dbW verifyW handlerW (some "Bearer gone") = userGoneResp ∧
    protectedRoute dbW verifyW handlerW (some "Bearer good") =
      handlerW ⟨1, "alice@mail.com", "alice"⟩ := by
  refine ⟨(C1_auth_gate dbW verifyW handlerW none).2.1 rfl,
    ((C1_auth_gate dbW verifyW handlerW (some "Bearer bad")).2.2 "bad" rfl).1 rfl,
    ((C1_auth_gate dbW verifyW handlerW (some "Bearer exp")).2.2 "exp" rfl).2.1 rfl,
    ((((C1_auth_gate dbW verifyW handlerW (some "Bearer gone")).2.2 "gone" rfl).2.2
      ⟨2, "bob@mail.com", "bob"⟩ rfl).1) rfl,
    (((((C1_auth_gate dbW verifyW handlerW (some "Bearer good")).2.2 "good" rfl).2.2
      ⟨1, "alice@mail.com", "alice"⟩ rfl).2) ⟨1, "alice", "alice@mail.com", 100⟩ rfl).2⟩

/-- C9: the gate takes the second space-separated segment of the header as the
token and never checks the scheme word, so any scheme works; and a non-empty
header with no space at all yields the no-token 401 response, independently of
the verifier (verification is never attempted). -/
theorem C9_gate_ignores_scheme (db : List StoredUser) (verify : String → VerifyResult)
    (scheme tok hdr : String)
    (hs : ∀ c ∈ scheme.toList, c ≠ ' ') (ht : ∀ c ∈ tok.toList, c ≠ ' ')
    (h0 : tok ≠ "") (_hh0 : hdr ≠ "") (hhns : ∀ c ∈ hdr.toList, c ≠ ' ') :
    authenticateToken db verify (some (scheme ++ " " ++ tok)) =
      gateOnVerify db (verify tok) ∧
    (∀ verify2 : String → VerifyResult,
      authenticateToken db verify2 (some hdr) = .error noTokenResp) ∧
    noTokenResp.status = 401 := by
  refine ⟨?_, ?_, rfl⟩
  · unfold authenticateToken
    rw [extractToken_word_pair scheme tok hs ht h0]
  · intro v2
    unfold authenticateToken
    rw [extractToken_no_space hdr hhns]

/-- Concrete instance of C9: a non-Bearer scheme is accepted and the token
still verified; a bare token without scheme is rejected as no-token. -/
theorem C9_gate_ignores_scheme_witness :
    authenticateToken dbW verifyW (some "Token good") = gateOnVerify dbW (verifyW "good") ∧
    authenticateToken dbW verifyW (some "goodtokenalone") = .error noTokenResp := by
  have h := C9_gate_ignores_scheme dbW verifyW "Token" "good" "goodtokenalone"
    (by decide) (by decide) (by decide) (by decide) (by decide)
  exact ⟨h.1, h.2.1 verifyW⟩

/-- C8: a token issued at a successful login carries expiresAt equal to its
issuance time plus 24 hours; Token Service verification at any time up to
expiresAt returns the claims unchanged and, when the account is still present,
the gate attaches the re-fetched identity; verification at any time strictly
after expiresAt fails as expired, which the gate surfaces as HTTP 401. -/
theorem C8_token_lifetime (db db' : List StoredUser)
    (compare : String → String → Bool) (sigOf : Claims → Int → Int → Nat)
    (t0 : Int) (rq : LoginReq) (user : StoredUser) (email password : String)
    (hrqe : rq.email = some email) (hrqp : rq.password = some password)
    (he : email ≠ "") (hp : password ≠ "")
    (hfind : findUserByEmail db email = some user)
    (hcmp : compare password user.password = true) :
    loginUser db compare sigOf t0 rq =
      ⟨200, loginSuccessBody user
        (signToken sigOf ⟨user.id, user.email, user.username⟩ t0)⟩ ∧
    (signToken sigOf ⟨user.id, user.email, user.username⟩ t0).issuedAt = t0 ∧
    (signToken sigOf ⟨user.id, user.email, user.username⟩ t0).expiresAt =
      t0 + tokenLifetime ∧
    (∀ now, now ≤ t0 + tokenLifetime →
      verifyToken sigOf (signToken sigOf ⟨user.id, user.email, user.username⟩ t0) now =
        .ok ⟨user.id, user.email, user.username⟩ ∧
      ∀ u, findUserById db' user.id = some u →
        gateOnVerify db'
          (verifyToken sigOf (signToken sigOf ⟨user.id, user.email, user.username⟩ t0) now) =
          .ok ⟨u.id, u.email, u.username⟩) ∧
    (∀ now, t0 + tokenLifetime < now →
      verifyToken sigOf (signToken sigOf ⟨user.id, user.email, user.username⟩ t0) now =
        .expiredToken ∧
      gateOnVerify db'
        (verifyToken sigOf (signToken sigOf ⟨user.id, user.email, user.username⟩ t0) now) =
        .error expiredTokenResp ∧
      expiredTokenResp.status = 401) := by
  have hlogin : loginUser db compare sigOf t0 rq =
      ⟨200, loginSuccessBody user
        (signToken sigOf ⟨user.id, user.email, user.username⟩ t0)⟩ := by
    have hee : (email.isEmpty) = false := by
      rw [Bool.eq_false_iff]
      intro hb
      exact he ((String.isEmpty_iff email).mp hb)
    have hpe : (password.isEmpty) = false := by
      rw [Bool.eq_false_iff]
      intro hb
      exact hp ((String.isEmpty_iff password).mp hb)
    simp [loginUser, hrqe, hrqp, falsy, hee, hpe, hfind, hcmp]
  have hok : ∀ now, now ≤ t0 + tokenLifetime →
      verifyToken sigOf (signToken sigOf ⟨user.id, user.email, user.username⟩ t0) now =
        .ok ⟨user.id, user.email, user.username⟩ := by
    intro now hnow
    simp [verifyToken, signToken, not_lt.mpr hnow]
  have hexp : ∀ now, t0 + tokenLifetime < now →
      verifyToken sigOf (signToken sigOf ⟨user.id, user.email, user.username⟩ t0) now =
        .expiredToken := by
    intro now hnow
    simp [verifyToken, signToken, hnow]
  refine ⟨hlogin, rfl, rfl, ?_, ?_⟩
  · intro now hnow
    refine ⟨hok now hnow, ?_⟩
    intro u hu
    rw [hok now hnow]
    simp [gateOnVerify, hu]
  · intro now hnow
    refine ⟨hexp now hnow, ?_, rfl⟩
    rw [hexp now hnow]
    rfl

/-- Concrete instance of C8: the fixture user logs in at time 0; the token
verifies at 86400 seconds (exactly 24 hours) and is expired at 86401. -/
theorem C8_token_lifetime_witness :
    loginUser dbW cmpW sigW 0 ⟨some "alice@mail.com", some "secret1"⟩ =
      ⟨200, loginSuccessBody userW
        (signToken sigW ⟨1, "alice@mail.com", "alice"⟩ 0)⟩ ∧
    verifyToken sigW (signToken sigW ⟨1, "alice@mail.com", "alice"⟩ 0) 86400 =
      .ok ⟨1, "alice@mail.com", "alice"⟩ ∧
    gateOnVerify dbW
      (verifyToken sigW (signToken sigW ⟨1, "alice@mail.com", "alice"⟩ 0) 86401) =
      .error expiredTokenResp := by
  have h := C8_token_lifetime dbW dbW cmpW sigW 0
    ⟨some "alice@mail.com", some "secret1"⟩ userW "alice@mail.com" "secret1"
    rfl rfl (by decide) (by decide) rfl rfl
  exact ⟨h.1, (h.2.2.2.1 86400 (by decide)).1, (h.2.2.2.2 86401 (by decide)).2.1⟩

/-- C3: a login whose email matches no stored user and a login whose email
matches a user but whose password fails verification both produce status 401
with the identical error body. -/
theorem C3_login_indistinguishable (db : List StoredUser)
    (compare : String → String → Bool) (sigOf : Claims → Int → Int → Nat)
    (now1 now2 : Int) (rq1 rq2 : LoginReq) (e1 p1 e2 p2 : String)
    (h1e : rq1.email = some e1) (h1p : rq1.password = some p1)
    (h1e' : e1 ≠ "") (h1p' : p1 ≠ "")
    (h2e : rq2.email = some e2) (h2p : rq2.password = some p2)
    (h2e' : e2 ≠ "") (h2p' : p2 ≠ "")
    (hnone : findUserByEmail db e1 = none)
    (u : StoredUser) (hsome : findUserByEmail db e2 = some u)
    (hbad : compare p2 u.password = false) :
    loginUser db compare sigOf now1 rq1 = ⟨401, errBody msgInvalidCreds⟩ ∧
    loginUser db compare sigOf now2 rq2 = ⟨401, errBody msgInvalidCreds⟩ ∧
    (loginUser db compare sigOf now1 rq1).body =
      (loginUser db compare sigOf now2 rq2).body := by
  have hee : (e1.isEmpty) = false := by
    rw [Bool.eq_false_iff]
    intro hb
    exact h1e' ((String.isEmpty_iff e1).mp hb)
  have hpe : (p1.isEmpty) = false := by
    rw [Bool.eq_false_iff]
    intro hb
    exact h1p' ((String.isEmpty_iff p1).mp hb)
  have hee2 : (e2.isEmpty) = false := by
    rw [Bool.eq_false_iff]
    intro hb
    exact h2e' ((String.isEmpty_iff e2).mp hb)
  have hpe2 : (p2.isEmpty) = false := by
    rw [Bool.eq_false_iff]
    intro hb
    exact h2p' ((String.isEmpty_iff p2).mp hb)
  have h1 : loginUser db compare sigOf now1 rq1 = ⟨401, errBody msgInvalidCreds⟩ := by
    simp [loginUser, h1e, h1p, falsy, hee, hpe, hnone]
  have h2 : loginUser db compare sigOf now2 rq2 = ⟨401, errBody msgInvalidCreds⟩ := by
    simp [loginUser, h2e, h2p, falsy, hee2, hpe2, hsome, hbad]
  exact ⟨h1, h2, by rw [h1, h2]⟩

/-- Concrete instance of C3: an unknown email and a known email with a wrong
password produce the same 401 response. -/
theorem C3_login_indistinguishable_witness :
    loginUser dbW cmpFalseW sigW 0 ⟨some "nobody@mail.com", some "pw1234"⟩ =
      ⟨401, errBody msgInvalidCreds⟩ ∧
    loginUser dbW cmpFalseW sigW 0 ⟨some "alice@mail.com", some "wrongpw"⟩ =
      ⟨401, errBody msgInvalidCreds⟩ := by
  have h := C3_login_indistinguishable dbW cmpFalseW sigW 0 0
    ⟨some "nobody@mail.com", some "pw1234"⟩ ⟨some "alice@mail.com", some "wrongpw"⟩
    "nobody@mail.com" "pw1234" "alice@mail.com" "wrongpw"
    rfl rfl (by decide) (by decide) rfl rfl (by decide) (by decide)
    rfl userW rfl rfl
  exact ⟨h.1, h.2.1⟩

/-- A non-empty string is not isEmpty. -/
theorem isEmpty_false_of_ne (s : String) (h : s ≠ "") : s.isEmpty = false := by
  rw [Bool.eq_false_iff]
  intro hb
  exact h ((String.isEmpty_iff s).mp hb)

/-- When the three fields are present, the email well-formed, the password long
enough and both duplicate pre-checks empty, register reaches the insert and its
response is decided by the insert outcome alone. -/
theorem registerUser_insert_reached (db : List StoredUser) (hash : String → String)
    (ins : InsertOutcome) (username email password : String)
    (hu : username ≠ "") (he : email ≠ "")
    (hem : emailTest email = true) (hlen : ¬ password.length < 6)
    (hde : findUserByEmail db email = none)
    (hdu : findUserByUsername db username = none) :
    registerUser db hash ins ⟨some username, some email, some password⟩ =
      match ins with
      | .ok newId createdAt =>
        (⟨201, regSuccessBody username email newId createdAt⟩,
         db ++ [⟨newId, username, email, hash password, createdAt⟩])
      | .err code _detail =>
        if code = some "23505" then (⟨409, errBody msgDupUser⟩, db)
        else (⟨500, errBody msgRegServerError⟩, db) := by
  have hp : password ≠ "" := by
    intro h
    rw [h] at hlen
    exact hlen (by decide)
  simp [registerUser, falsy, isEmpty_false_of_ne _ hu, isEmpty_false_of_ne _ he,
    isEmpty_false_of_ne _ hp, hem, hlen, hde, hdu]

/-- C4: when the persistence insert reports the unique-violation code 23505,
register fails 409 Conflict; any other insert error yields 500 with the fixed
generic message, and the server-side detail is withheld from the body. -/
theorem C4_persistence_errors (db : List StoredUser) (hash : String → String)
    (username email password : String) (code : Option String) (detail : String)
    (hu : username ≠ "") (he : email ≠ "") (hem : emailTest email = true)
    (hlen : ¬ password.length < 6)
    (hde : findUserByEmail db email = none)
    (hdu : findUserByUsername db username = none) :
    (code = some "23505" →
      registerUser db hash (.err code detail) ⟨some username, some email, some password⟩ =
        (⟨409, errBody msgDupUser⟩, db)) ∧
    (code ≠ some "23505" →
      registerUser db hash (.err code detail) ⟨some username, some email, some password⟩ =
        (⟨500, errBody msgRegServerError⟩, db) ∧
      (detail ≠ msgRegServerError → detail ∉ jsonStrs (errBody msgRegServerError))) := by
  have h := registerUser_insert_reached db hash (.err code detail)
    username email password hu he hem hlen hde hdu
  constructor
  · intro hc
    rw [h]
    simp [hc]
  · intro hc
    refine ⟨?_, ?_⟩
    · rw [h]
      simp [hc]
    · intro hdne
      simp [jsonStrs, jsonStrsObj, errBody, hdne]

/-- Concrete instance of C4: a 23505 insert error yields 409; a different
driver code yields the generic 500. -/
theorem C4_persistence_errors_witness :
    registerUser [] hashW (.err (some "23505") "duplicate key detail")
      ⟨some "bob", some "bob@mail.com", some "secret1"⟩ =
      (⟨409, errBody msgDupUser⟩, []) ∧
    registerUser [] hashW (.err (some "42601") "syntax error detail")
      ⟨some "bob", some "bob@mail.com", some "secret1"⟩ =
      (⟨500, errBody msgRegServerError⟩, []) := by
  have h1 := C4_persistence_errors [] hashW "bob" "bob@mail.com" "secret1"
    (some "23505") "duplicate key detail"
    (by decide) (by decide) (by decide) (by decide) rfl rfl
  have h2 := C4_persistence_errors [] hashW "bob" "bob@mail.com" "secret1"
    (some "42601") "syntax error detail"
    (by decide) (by decide) (by decide) (by decide) rfl rfl
  exact ⟨h1.1 rfl, (h2.2 (by decide)).1⟩

/-- C6: with username and email present, well-formed and untaken, register
rejects a 5-character password with the 400 length validation error, and with
a 6-character password the length validation passes and registration succeeds
with 201, storing the new user. -/
theorem C6_password_boundary (db : List StoredUser) (hash : String → String)
    (username email p5 p6 : String) (newId : Nat) (createdAt : Int)
    (hu : username ≠ "") (he : email ≠ "") (hem : emailTest email = true)
    (hde : findUserByEmail db email = none)
    (hdu : findUserByUsername db username = none)
    (h5 : p5.length = 5) (h6 : p6.length = 6) :
    (∀ ins, registerUser db hash ins ⟨some username, some email, some p5⟩ =
      (⟨400, errBody msgShortPw⟩, db)) ∧
    registerUser db hash (.ok newId createdAt) ⟨some username, some email, some p6⟩ =
      (⟨201, regSuccessBody username email newId createdAt⟩,
       db ++ [⟨newId, username, email, hash p6, createdAt⟩]) := by
  constructor
  · intro ins
    have hp5 : p5 ≠ "" := by
      intro h
      rw [h] at h5
      exact absurd h5 (by decide)
    simp [registerUser, falsy, isEmpty_false_of_ne _ hu, isEmpty_false_of_ne _ he,
      isEmpty_false_of_ne _ hp5, hem, h5]
  · have h := registerUser_insert_reached db hash (.ok newId createdAt)
      username email p6 hu he hem (by rw [h6]; decide) hde hdu
    exact h

/-- Concrete instance of C6: a 5-character password is rejected, a 6-character
one is registered. -/
theorem C6_password_boundary_witness :
    registerUser [] hashW (.ok 1 50) ⟨some "bob", some "bob@mail.com", some "abcde"⟩ =
      (⟨400, errBody msgShortPw⟩, []) ∧
    registerUser [] hashW (.ok 1 50) ⟨some "bob", some "bob@mail.com", some "abcdef"⟩ =
      (⟨201, regSuccessBody "bob" "bob@mail.com" 1 50⟩,
       [⟨1, "bob", "bob@mail.com", hashW "abcdef", 50⟩]) := by
  have h := C6_password_boundary [] hashW "bob" "bob@mail.com" "abcde" "abcdef" 1 50
    (by decide) (by decide) (by decide) rfl rfl (by decide) (by decide)
  exact ⟨h.1 (.ok 1 50), h.2⟩

/-- C10: lookups by email and username are exact case-sensitive matches, so a
second registration whose email and username differ from the first's only in
letter case passes the duplicate pre-checks and succeeds, leaving two stored
users whose emails differ only in case. -/
theorem C10_case_sensitive_uniqueness (db : List StoredUser)
    (hash1 hash2 : String → String) (u1 u2 e1 e2 p1 p2 : String)
    (id1 id2 : Nat) (t1 t2 : Int)
    (hu1 : u1 ≠ "") (hu2 : u2 ≠ "") (he1 : e1 ≠ "") (he2 : e2 ≠ "")
    (hl1 : ¬ p1.length < 6) (hl2 : ¬ p2.length < 6)
    (hm1 : emailTest e1 = true) (hm2 : emailTest e2 = true)
    (hde1 : findUserByEmail db e1 = none) (hdu1 : findUserByUsername db u1 = none)
    (hde2 : findUserByEmail db e2 = none) (hdu2 : findUserByUsername db u2 = none)
    (hene : e1 ≠ e2) (_helow : lowerStr e1 = lowerStr e2)
    (hune : u1 ≠ u2) (_hulow : lowerStr u1 = lowerStr u2) :
    (∀ d e (v : StoredUser), findUserByEmail d e = some v → v.email = e) ∧
    (∀ d n (v : StoredUser), findUserByUsername d n = some v → v.username = n) ∧
    registerUser db hash1 (.ok id1 t1) ⟨some u1, some e1, some p1⟩ =
      (⟨201, regSuccessBody u1 e1 id1 t1⟩, db ++ [⟨id1, u1, e1, hash1 p1, t1⟩]) ∧
    findUserByEmail (db ++ [⟨id1, u1, e1, hash1 p1, t1⟩]) e2 = none ∧
    findUserByUsername (db ++ [⟨id1, u1, e1, hash1 p1, t1⟩]) u2 = none ∧
    registerUser (db ++ [⟨id1, u1, e1, hash1 p1, t1⟩]) hash2 (.ok id2 t2)
      ⟨some u2, some e2, some p2⟩ =
      (⟨201, regSuccessBody u2 e2 id2 t2⟩,
       (db ++ [⟨id1, u1, e1, hash1 p1, t1⟩]) ++ [⟨id2, u2, e2, hash2 p2, t2⟩]) := by
  have exact1 : ∀ d e (v : StoredUser), findUserByEmail d e = some v → v.email = e := by
    intro d e v hv
    have hpv := List.find?_some hv
    simpa using hpv
  have exact2 : ∀ d n (v : StoredUser), findUserByUsername d n = some v → v.username = n := by
    intro d n v hv
    have hpv := List.find?_some hv
    simpa using hpv
  have hde2' : findUserByEmail (db ++ [⟨id1, u1, e1, hash1 p1, t1⟩]) e2 = none := by
    rw [findUserByEmail, List.find?_eq_none]
    intro x hx
    rcases List.mem_append.mp hx with hx | hx
    · exact List.find?_eq_none.mp hde2 x hx
    · simp at hx
      subst hx
      simp [hene]
  have hdu2' : findUserByUsername (db ++ [⟨id1, u1, e1, hash1 p1, t1⟩]) u2 = none := by
    rw [findUserByUsername, List.find?_eq_none]
    intro x hx
    rcases List.mem_append.mp hx with hx | hx
    · exact List.find?_eq_none.mp hdu2 x hx
    · simp at hx
      subst hx
      simp [hune]
  have hreg1 := registerUser_insert_reached db hash1 (.ok id1 t1)
    u1 e1 p1 hu1 he1 hm1 hl1 hde1 hdu1
  have hreg2 := registerUser_insert_reached (db ++ [⟨id1, u1, e1, hash1 p1, t1⟩])
    hash2 (.ok id2 t2) u2 e2 p2 hu2 he2 hm2 hl2 hde2' hdu2'
  exact ⟨exact1, exact2, hreg1, hde2', hdu2', hreg2⟩

/-- Concrete instance of C10: bob at bob@mail.com registers, then Bob at
Bob@mail.com also registers; both succeed and both rows are stored. -/
theorem C10_case_sensitive_uniqueness_witness :
    registerUser [] hashW (.ok 1 10) ⟨some "bob", some "bob@mail.com", some "secret1"⟩ =
      (⟨201, regSuccessBody "bob" "bob@mail.com" 1 10⟩,
       [⟨1, "bob", "bob@mail.com", hashW "secret1", 10⟩]) ∧
    registerUser [⟨1, "bob", "bob@mail.com", hashW "secret1", 10⟩] hashW (.ok 2 20)
      ⟨some "Bob", some "Bob@mail.com", some "secret2"⟩ =
      (⟨201, regSuccessBody "Bob" "Bob@mail.com" 2 20⟩,
       [⟨1, "bob", "bob@mail.com", hashW "secret1", 10⟩,
        ⟨2, "Bob", "Bob@mail.com", hashW "secret2", 20⟩]) := by
  have h := C10_case_sensitive_uniqueness [] hashW hashW "bob" "Bob"
    "bob@mail.com" "Bob@mail.com" "secret1" "secret2" 1 2 10 20
    (by decide) (by decide) (by decide) (by decide) (by decide) (by decide)
    (by decide) (by decide) rfl rfl rfl rfl
    (by decide) (by decide) (by decide) (by decide)
  exact ⟨h.2.2.1, h.2.2.2.2.2⟩

/-- C7: the list operation returns exactly the stored users' public
projections ordered by createdAt descending; in particular a directory built
by registering rows a then b then c with increasing creation times lists them
as c, b, a. -/
theorem C7_list_order (db : List StoredUser) (a b c : StoredUser)
    (hab : a.createdAt < b.createdAt) (hbc : b.createdAt < c.createdAt) :
    (getAllUsers db).Perm (db.map StoredUser.toPub) ∧
    (getAllUsers db).Pairwise (fun x y => y.createdAt ≤ x.createdAt) ∧
    getAllUsers [a, b, c] = [c.toPub, b.toPub, a.toPub] := by
  refine ⟨?_, ?_, ?_⟩
  · exact (List.perm_insertionSort createdDesc db).map _
  · exact List.pairwise_map.mpr (List.sorted_insertionSort createdDesc db)
  · simp [getAllUsers, List.insertionSort, List.orderedInsert, createdDesc,
      not_le.mpr hab, not_le.mpr hbc, not_le.mpr (hab.trans hbc)]

/-- Concrete instance of C7: three rows created at times 1, 2, 3 list in the
order 3, 2, 1. -/
theorem C7_list_order_witness :
    getAllUsers [⟨1, "a", "a@b.c", "h1", 1⟩, ⟨2, "b", "b@b.c", "h2", 2⟩,
      ⟨3, "c", "c@b.c", "h3", 3⟩] =
      [⟨3, "c", "c@b.c", 3⟩, ⟨2, "b", "b@b.c", 2⟩, ⟨1, "a", "a@b.c", 1⟩] := by
  have h := C7_list_order [] ⟨1, "a", "a@b.c", "h1", 1⟩ ⟨2, "b", "b@b.c", "h2", 2⟩
    ⟨3, "c", "c@b.c", "h3", 3⟩ (by decide) (by decide)
  exact h.2.2

/-- C5 as stated fails on the code: on a one-user directory the list
controller's success response is a bare JSON array of rows, not an object
with message, count and users fields. -/
theorem C5_counterexample : ¬ listRespSpecShape (getAllUsersHandler dbW) := by
  rintro ⟨-, msg, users, h⟩
  have hbody : (getAllUsersHandler dbW).body =
      Json.arr [pubUserJson ⟨1, "alice", "alice@mail.com", 100⟩] := rfl
  rw [hbody] at h
  exact Json.noConfusion h

/-- C5 amended: an authenticated GET users request that passes the gate
responds 200 with the JSON array of the stored users' public rows directly,
one element per stored user (so the array length equals the directory size);
there is no wrapper object with message and count fields. -/
theorem C5_list_success_shape (db : List StoredUser) (verify : String → VerifyResult)
    (header : Option String) (ru : ReqUser)
    (hok : authenticateToken db verify header = .ok ru) :
    getUsersRoute db verify header = getAllUsersHandler db ∧
    (getAllUsersHandler db).status = 200 ∧
    (getAllUsersHandler db).body = .arr ((getAllUsers db).map pubUserJson) ∧
    ((getAllUsers db).map pubUserJson).length = db.length := by
  refine ⟨?_, rfl, rfl, ?_⟩
  · simp [getUsersRoute, protectedRoute, hok]
  · rw [List.length_map, getAllUsers, List.length_map]
    exact (List.perm_insertionSort createdDesc db).length_eq

/-- Concrete instance of the amended C5 on the fixture directory. -/
theorem C5_list_success_shape_witness :
    getUsersRoute dbW verifyW (some "Bearer good") = getAllUsersHandler dbW ∧
    (getAllUsersHandler dbW).status = 200 := by
  have h := C5_list_success_shape dbW verifyW (some "Bearer good")
    ⟨1, "alice@mail.com", "alice"⟩ rfl
  exact ⟨h.1, h.2.1⟩

/-- Keys of the error body shape. -/
theorem jsonKeys_errBody (m : String) : jsonKeys (errBody m) = ["error"] := rfl

/-- String values of the error body shape. -/
theorem jsonStrs_errBody (m : String) : jsonStrs (errBody m) = [m] := rfl

/-- Keys of the register success body. -/
theorem jsonKeys_regBody (u e : String) (i : Nat) (t : Int) :
    jsonKeys (regSuccessBody u e i t) =
      ["message", "user", "id", "username", "email", "createdAt"] := rfl

/-- String values of the register success body. -/
theorem jsonStrs_regBody (u e : String) (i : Nat) (t : Int) :
    jsonStrs (regSuccessBody u e i t) = [msgRegSuccess, u, e] := rfl

/-- Keys of the login success body. -/
theorem jsonKeys_loginBody (u : StoredUser) (tk : Token) :
    jsonKeys (loginSuccessBody u tk) =
      ["message", "token", "user", "id", "username", "email"] := rfl

/-- String values of the login success body. -/
theorem jsonStrs_loginBody (u : StoredUser) (tk : Token) :
    jsonStrs (loginSuccessBody u tk) = [msgLoginSuccess, u.username, u.email] := rfl

/-- Keys of one serialized public row. -/
theorem jsonKeys_pubUserJson (u : PubUser) :
    jsonKeys (pubUserJson u) = ["id", "username", "email", "createdAt"] := rfl

/-- String values of one serialized public row. -/
theorem jsonStrs_pubUserJson (u : PubUser) :
    jsonStrs (pubUserJson u) = [u.username, u.email] := rfl

/-- Every register response body is either one of the fixed error messages or
the success shape over the request's own username and email. -/
theorem registerUser_body_cases (db : List StoredUser) (hash : String → String)
    (ins : InsertOutcome) (rq : RegisterReq) :
    (∃ m, m ∈ allMessages ∧ (registerUser db hash ins rq).1.body = errBody m) ∨
    (∃ i t, (registerUser db hash ins rq).1.body =
      regSuccessBody (rq.username.getD "") (rq.email.getD "") i t) := by
  unfold registerUser
  split
  · exact Or.inl ⟨msgAllFields, by simp [allMessages], rfl⟩
  · split
    · exact Or.inl ⟨msgBadEmail, by simp [allMessages], rfl⟩
    · split
      · exact Or.inl ⟨msgShortPw, by simp [allMessages], rfl⟩
      · split
        · exact Or.inl ⟨msgEmailTaken, by simp [allMessages], rfl⟩
        · split
          · exact Or.inl ⟨msgUsernameTaken, by simp [allMessages], rfl⟩
          · split
            · exact Or.inr ⟨_, _, rfl⟩
            · split
              · exact Or.inl ⟨msgDupUser, by simp [allMessages], rfl⟩
              · exact Or.inl ⟨msgRegServerError, by simp [allMessages], rfl⟩

/-- Every login response body is either one of the fixed error messages or the
success shape over a stored user. -/
theorem loginUser_body_cases (db : List StoredUser) (compare : String → String → Bool)
    (sigOf : Claims → Int → Int → Nat) (now : Int) (rq : LoginReq) :
    (∃ m, m ∈ allMessages ∧ (loginUser db compare sigOf now rq).body = errBody m) ∨
    (∃ u, u ∈ db ∧ ∃ tk, (loginUser db compare sigOf now rq).body = loginSuccessBody u tk) := by
  unfold loginUser
  split
  · exact Or.inl ⟨msgLoginFields, by simp [allMessages], rfl⟩
  · split
    · exact Or.inl ⟨msgInvalidCreds, by simp [allMessages], rfl⟩
    · rename_i user hfind
      split
      · exact Or.inl ⟨msgInvalidCreds, by simp [allMessages], rfl⟩
      · exact Or.inr ⟨user, List.mem_of_find?_eq_some hfind, _, rfl⟩

/-- A key occurring in the serialized rows is one of the four public column names. -/
theorem mem_jsonKeysArr_pub (k : String) (l : List PubUser)
    (hk : k ∈ jsonKeysArr (l.map pubUserJson)) :
    k = "id" ∨ k = "username" ∨ k = "email" ∨ k = "createdAt" := by
  induction l with
  | nil => simp [jsonKeysArr] at hk
  | cons u us ih =>
    simp only [List.map_cons, jsonKeysArr] at hk
    rcases List.mem_append.mp hk with h | h
    · rw [jsonKeys_pubUserJson] at h
      simpa using h
    · exact ih h

/-- A string value occurring in the serialized rows is the username or email
of one of them. -/
theorem mem_jsonStrsArr_pub (p : String) (l : List PubUser)
    (hp : p ∈ jsonStrsArr (l.map pubUserJson)) :
    ∃ u, u ∈ l ∧ (p = u.username ∨ p = u.email) := by
  induction l with
  | nil => simp [jsonStrsArr] at hp
  | cons u us ih =>
    simp only [List.map_cons, jsonStrsArr] at hp
    rcases List.mem_append.mp hp with h | h
    · rw [jsonStrs_pubUserJson] at h
      simp at h
      exact ⟨u, List.mem_cons_self u us, h⟩
    · rcases ih h with ⟨v, hv, hpv⟩
      exact ⟨v, List.mem_cons_of_mem u hv, hpv⟩

/-- Every listed row is the public projection of a stored row. -/
theorem mem_getAllUsers (db : List StoredUser) (u : PubUser) (hu : u ∈ getAllUsers db) :
    ∃ v, v ∈ db ∧ u = v.toPub := by
  rcases List.mem_map.mp hu with ⟨v, hv, rfl⟩
  exact ⟨v, (List.perm_insertionSort createdDesc db).mem_iff.mp hv, rfl⟩

/-- A string outside the message table differs from each of its entries. -/
theorem ne_of_not_mem_allMessages (p m : String) (hp : p ∉ allMessages)
    (hm : m ∈ allMessages) : p ≠ m := fun h => hp (h ▸ hm)

/-- C2: across register, login and listAll, in every branch of every outcome,
no object field named password occurs in the response body, and no string
separated from the public data (in particular any stored bcrypt hash, which is
neither a username, an email of a stored user, a field of the request, nor a
fixed message) occurs as a string value of the body. -/
theorem C2_no_password_in_responses (db : List StoredUser) (hash : String → String)
    (ins : InsertOutcome) (rq : RegisterReq) (compare : String → String → Bool)
    (sigOf : Claims → Int → Int → Nat) (now : Int) (lrq : LoginReq) (p : String)
    (hdb : ∀ u, u ∈ db → p ≠ u.username ∧ p ≠ u.email)
    (hru : p ≠ rq.username.getD "") (hre : p ≠ rq.email.getD "")
    (hmsg : p ∉ allMessages) :
    ("password" ∉ jsonKeys (registerUser db hash ins rq).1.body ∧
      p ∉ jsonStrs (registerUser db hash ins rq).1.body) ∧
    ("password" ∉ jsonKeys (loginUser db compare sigOf now lrq).body ∧
      p ∉ jsonStrs (loginUser db compare sigOf now lrq).body) ∧
    ("password" ∉ jsonKeys (getAllUsersHandler db).body ∧
      p ∉ jsonStrs (getAllUsersHandler db).body) := by
  refine ⟨?_, ?_, ?_⟩
  · rcases registerUser_body_cases db hash ins rq with ⟨m, hm, hbody⟩ | ⟨i, t, hbody⟩
    · rw [hbody, jsonKeys_errBody, jsonStrs_errBody]
      refine ⟨by decide, ?_⟩
      intro hpm
      simp at hpm
      exact ne_of_not_mem_allMessages p m hmsg hm hpm
    · rw [hbody, jsonKeys_regBody, jsonStrs_regBody]
      refine ⟨by decide, ?_⟩
      intro hp
      simp at hp
      rcases hp with h | h | h
      · exact ne_of_not_mem_allMessages p msgRegSuccess hmsg (by simp [allMessages]) h
      · exact hru h
      · exact hre h
  · rcases loginUser_body_cases db compare sigOf now lrq with
      ⟨m, hm, hbody⟩ | ⟨u, hu, tk, hbody⟩
    · rw [hbody, jsonKeys_errBody, jsonStrs_errBody]
      refine ⟨by decide, ?_⟩
      intro hpm
      simp at hpm
      exact ne_of_not_mem_allMessages p m hmsg hm hpm
    · rw [hbody, jsonKeys_loginBody, jsonStrs_loginBody]
      refine ⟨by decide, ?_⟩
      intro hp
      simp at hp
      rcases hp with h | h | h
      · exact ne_of_not_mem_allMessages p msgLoginSuccess hmsg (by simp [allMessages]) h
      · exact (hdb u hu).1 h
      · exact (hdb u hu).2 h
  · constructor
    · intro hk
      have hk' : "password" ∈ jsonKeysArr ((getAllUsers db).map pubUserJson) := by
        simpa [getAllUsersHandler, jsonKeys] using hk
      rcases mem_jsonKeysArr_pub _ _ hk' with h | h | h | h <;> exact absurd h (by decide)
    · intro hp
      have hp' : p ∈ jsonStrsArr ((getAllUsers db).map pubUserJson) := by
        simpa [getAllUsersHandler, jsonStrs] using hp
      rcases mem_jsonStrsArr_pub _ _ hp' with ⟨u, hu, hpu⟩
      rcases mem_getAllUsers db u hu with ⟨v, hv, rfl⟩
      rcases hpu with h | h
      · exact (hdb v hv).1 h
      · exact (hdb v hv).2 h

/-- Concrete instance of C2: the fixture hash value appears in no response of
the three endpoints, and no body has a password field. -/
theorem C2_no_password_in_responses_witness :
    ("password" ∉ jsonKeys (registerUser dbW hashW (.ok 2 200)
        ⟨some "bob", some "bob@mail.com", some "secret1"⟩).1.body ∧
      "$2b$10$hashA" ∉ jsonStrs (registerUser dbW hashW (.ok 2 200)
        ⟨some "bob", some "bob@mail.com", some "secret1"⟩).1.body) ∧
    ("password" ∉ jsonKeys (loginUser dbW cmpW sigW 0
        ⟨some "alice@mail.com", some "secret1"⟩).body ∧
      "$2b$10$hashA" ∉ jsonStrs (loginUser dbW cmpW sigW 0
        ⟨some "alice@mail.com", some "secret1"⟩).body) ∧
    ("password" ∉ jsonKeys (getAllUsersHandler dbW).body ∧
      "$2b$10$hashA" ∉ jsonStrs (getAllUsersHandler dbW).body) :=
  C2_no_password_in_responses dbW hashW (.ok 2 200)
    ⟨some "bob", some "bob@mail.com", some "secret1"⟩ cmpW sigW 0
    ⟨some "alice@mail.com", some "secret1"⟩ "$2b$10$hashA"
    (by intro u hu
        simp [dbW] at hu
        subst hu
        exact ⟨by decide, by decide⟩)
    (by decide) (by decide) (by decide)

end UserService
